import Mathlib

/-!
Shallow embedding of the Facade Energy Generation Calculator (`src/app.py`).

Conventions of the embedding:
* a pandas cell is `Option ℚ`: `none` models a missing value (NaN / pd.NA);
* timestamps are integers (hours since an epoch); the hourly study grid is a
  list of such integers;
* the meteorological table is a list of `(timestamp, Row)` pairs, a `Row`
  holding the DNI, GHI, DHI, Temperature and Wind Speed cells;
* the external pvlib models (solar position + plane-of-array irradiance,
  Sandia cell temperature, module DC power, Sandia inverter) are out of scope
  per the spec and are abstracted as an `ExternalModels` record of pure
  functions;
* fallible pandas operations are embedded in `Except String`.
-/

namespace FacadeCalc

/-- A pandas cell: `none` is a missing value (NaN / pd.NA). -/
abbrev Cell := Option ℚ

/-- Embeds `series.replace(0, pd.NA)` (line 29 of `src/app.py`): every exact
zero becomes a missing value, everything else is untouched. -/
def replaceZeroWithNA (s : List Cell) : List Cell :=
  s.map (fun c => if c = some 0 then none else c)

/-- The valid (non-missing) entries of a series, with their positions,
starting the position count at `i`. -/
def validEntriesAux : ℕ → List Cell → List (ℕ × ℚ)
  | _, [] => []
  | i, some v :: rest => (i, v) :: validEntriesAux (i + 1) rest
  | i, none :: rest => validEntriesAux (i + 1) rest

/-- The valid (non-missing) entries of a series, with their positions. -/
def validEntries (s : List Cell) : List (ℕ × ℚ) :=
  validEntriesAux 0 s

/-- Value produced by pandas `interpolate(method='linear')` at a missing
position `i`: with the nearest valid neighbours at positions `j < i < k`
holding `a` and `b`, the value is the positional linear interpolation; with a
valid neighbour only on the left the last valid value is carried forward
(pandas' default `limit_direction='forward'` together with the clamping
behaviour of positional linear interpolation); with no valid neighbour on the
left the position stays missing. -/
def interpAt (valids : List (ℕ × ℚ)) (i : ℕ) : Cell :=
  match (valids.filter (fun p => p.1 < i)).getLast?,
        (valids.filter (fun p => i < p.1)).head? with
  | some (j, a), some (k, b) => some (a + (b - a) * ((i : ℚ) - (j : ℚ)) / ((k : ℚ) - (j : ℚ)))
  | some (_, a), none => some a
  | none, _ => none

/-- Pointwise pass of the interpolation: valid entries are kept, missing
entries at position `i` onward are filled per `interpAt`. -/
def interpolateLinearAux (valids : List (ℕ × ℚ)) : ℕ → List Cell → List Cell
  | _, [] => []
  | i, some v :: rest => some v :: interpolateLinearAux valids (i + 1) rest
  | i, none :: rest => interpAt valids i :: interpolateLinearAux valids (i + 1) rest

/-- Embeds `series.interpolate(method='linear')` (line 29 of `src/app.py`):
valid entries are kept, missing entries are filled per `interpAt`. -/
def interpolateLinear (s : List Cell) : List Cell :=
  interpolateLinearAux (validEntries s) 0 s

/-- Embeds `series.fillna(0)` (line 29 of `src/app.py`). -/
def fillna0 (s : List Cell) : List Cell :=
  s.map (fun c => some (c.getD 0))

/-- Embeds `interpolate_zero_values` (lines 28–29 of `src/app.py`):
`series.replace(0, pd.NA).interpolate(method='linear').fillna(0)`. -/
def interpolate_zero_values (s : List Cell) : List Cell :=
  fillna0 (interpolateLinear (replaceZeroWithNA s))

/-! ### Time alignment: `sort_index` and `reindex(times, method='nearest')` -/

/-- Embeds `nsrdb_data.sort_index()` (line 90 of `src/app.py`): sort the rows
by timestamp ascending. -/
def sortIndex {α : Type} (s : List (ℤ × α)) : List (ℤ × α) :=
  s.insertionSort (fun a b => a.1 ≤ b.1)

/-- The source timestamp pandas `get_indexer(..., method='nearest')` selects
for a target `t` on a monotonically increasing index: the timestamp at
minimal absolute distance from `t`, with tied distances broken by preferring
the larger index value (pandas `Index.get_indexer` documentation; for a
monotonic index the tie comparator is strict, so the later of two equidistant
timestamps wins).  The fold keeps the last minimiser, which on a sorted list
is the largest one. -/
def nearestFold (t : ℤ) (b : ℤ) (rest : List ℤ) : ℤ :=
  rest.foldl (fun best c => if (c - t).natAbs ≤ (best - t).natAbs then c else best) b

/-- See `nearestFold`: the nearest source timestamp to `t`, ties to the later
one; `none` on an empty index. -/
def nearestTime (times : List ℤ) (t : ℤ) : Option ℤ :=
  match times with
  | [] => none
  | s :: rest => some (nearestFold t s rest)

/-- The tie rule the spec asserts instead, written from the spec's words for
comparison: nearest source timestamp with ties broken toward the earlier one
(only a strict improvement moves the choice, so the first minimiser is
kept). -/
def nearestTimeEarlierTie (times : List ℤ) (t : ℤ) : Option ℤ :=
  match times with
  | [] => none
  | s :: rest =>
      some (rest.foldl (fun best c =>
        if (c - t).natAbs < (best - t).natAbs then c else best) s)

/-- The value stored at timestamp `s` (first matching row). -/
def lookupTime {α : Type} (src : List (ℤ × α)) (s : ℤ) : Option α :=
  (src.find? (fun r => r.1 == s)).map Prod.snd

/-- Embeds `nsrdb_data.reindex(times, method='nearest')` (line 94 of
`src/app.py`): pandas raises `InvalidIndexError` when the source index has
duplicate labels (the surrounding `try` turns that into an aborting error);
otherwise each target hour receives the row of the nearest source timestamp,
with no interpolation.  An empty source yields missing values. -/
def reindexNearest {α : Type} (src : List (ℤ × α)) (grid : List ℤ) :
    Except String (List (ℤ × Option α)) :=
  if (src.map Prod.fst).Nodup then
    Except.ok (grid.map (fun t =>
      (t, match nearestTime (src.map Prod.fst) t with
          | none => none
          | some s => lookupTime src s)))
  else Except.error "Reindexing only valid with uniquely valued Index objects"

/-! ### The meteorological table and the calculate-button pipeline -/

/-- One row of the NSRDB table after column extraction: the five quantities
the pipeline reads (`DNI`, `GHI`, `DHI`, `Temperature`, `Wind Speed`). -/
structure Row where
  dni : Cell
  ghi : Cell
  dhi : Cell
  temperature : Cell
  wind_speed : Cell
deriving DecidableEq, Repr

/-- A row of missing values (what a reindex against an empty source yields). -/
def emptyRow : Row := ⟨none, none, none, none, none⟩

/-- Lines 90–97 of `src/app.py`: sort the table by timestamp, then reindex it
onto the hourly study grid with nearest-neighbour matching. -/
def alignTable (raw : List (ℤ × Row)) (grid : List ℤ) : Except String (List Row) :=
  (reindexNearest (sortIndex raw) grid).map (fun l => l.map (fun p => p.2.getD emptyRow))

/-- Embeds `(series == 0).all()` over cells: a missing value never compares
equal to zero in pandas. -/
def allZeroCells (l : List Cell) : Bool :=
  l.all (fun c => c == some 0)

/-- Line 105 of `src/app.py`: the warning fires when the repaired GHI, DNI or
DHI column is zero over the whole study window. -/
def zeroIrradianceFlag (rows : List Row) : Bool :=
  allZeroCells (interpolate_zero_values (rows.map Row.ghi)) ||
  allZeroCells (interpolate_zero_values (rows.map Row.dni)) ||
  allZeroCells (interpolate_zero_values (rows.map Row.dhi))

/-- Line 122 of `src/app.py`: `temp_air = nsrdb_data['Temperature']` — the
column is extracted as-is. -/
def tempAirColumn (rows : List Row) : List Cell :=
  rows.map Row.temperature

/-- Line 123 of `src/app.py`: `wind_speed = nsrdb_data['Wind Speed']` — the
column is extracted as-is. -/
def windSpeedColumn (rows : List Row) : List Cell :=
  rows.map Row.wind_speed

/-- The external pvlib models, out of scope per the spec and abstracted as
pure functions: solar position + `get_total_irradiance` collapsed into `poa`
(DNI, GHI, DHI ↦ `poa_global`), `sapm_cell` with the fixed constants
a = −3.47, b = −0.0594, ΔT = 3 as `cellTemp`, the module model `sapm`'s
`p_mp` as `dcPower`, and `inverter.sandia` as `acFromDc`. -/
structure ExternalModels where
  poa : List Cell → List Cell → List Cell → List ℚ
  cellTemp : List ℚ → List Cell → List Cell → List ℚ
  dcPower : List ℚ → List ℚ → List ℚ
  acFromDc : List ℚ → List ℚ

/-- Lines 100–102 and 139–155 of `src/app.py`: the plane-of-array series is
computed from the three zero-repaired irradiance columns. -/
def poaOf (ext : ExternalModels) (rows : List Row) : List ℚ :=
  ext.poa (interpolate_zero_values (rows.map Row.dni))
          (interpolate_zero_values (rows.map Row.ghi))
          (interpolate_zero_values (rows.map Row.dhi))

/-- Lines 139–212 of `src/app.py`: the AC power series of the power chain.
The cell-temperature model receives the raw `Temperature` and `Wind Speed`
columns (no repair step is applied to them). -/
def acSeries (ext : ExternalModels) (rows : List Row) : List ℚ :=
  ext.acFromDc (ext.dcPower (poaOf ext rows)
    (ext.cellTemp (poaOf ext rows) (tempAirColumn rows) (windSpeedColumn rows)))

/-- The user-supplied facade parameters read by the aggregation step. -/
structure FacadeConfig where
  area : ℚ
  lossPercent : ℚ
deriving DecidableEq, Repr

/-- Line 215 of `src/app.py`: `energy_generated = ac_power.sum() * facade_area`. -/
def energy_generated (ac : List ℚ) (facade_area : ℚ) : ℚ :=
  ac.sum * facade_area

/-- Line 218 of `src/app.py`:
`effective_energy_generated = energy_generated * (1 - system_losses / 100)`. -/
def effective_energy_generated (ac : List ℚ) (facade_area system_losses : ℚ) : ℚ :=
  energy_generated ac facade_area * (1 - system_losses / 100)

/-- Line 221 of `src/app.py`:
`energy_generated_kWh = effective_energy_generated / 1000`. -/
def energy_generated_kWh (ac : List ℚ) (facade_area system_losses : ℚ) : ℚ :=
  effective_energy_generated ac facade_area system_losses / 1000

/-- What one press of the calculate button reports after a successful run. -/
structure PipelineOutput where
  zeroWarning : Bool
  energyKWh : ℚ
deriving DecidableEq, Repr

/-- Lines 89–223 of `src/app.py` after a successful fetch: align the table,
repair the irradiance columns, set the zero-irradiance warning, run the
power chain and aggregate.  A failing alignment aborts (`st.stop`). -/
def runPipeline (ext : ExternalModels) (cfg : FacadeConfig) (grid : List ℤ)
    (raw : List (ℤ × Row)) : Except String PipelineOutput :=
  match alignTable raw grid with
  | Except.error e => Except.error e
  | Except.ok rows =>
      Except.ok ⟨zeroIrradianceFlag rows,
        energy_generated_kWh (acSeries ext rows) cfg.area cfg.lossPercent⟩

/-- One calculation request: the study grid, the facade parameters, and the
fetched raw table. -/
structure Request where
  cfg : FacadeConfig
  grid : List ℤ
  raw : List (ℤ × Row)

/-- A sequence of calculate-button presses in one session.  The script holds
no state across presses (`st.session_state` is never used and every variable
of the handler is recomputed from the inputs), so a session is the pointwise
application of `runPipeline`. -/
def runSession (ext : ExternalModels) (reqs : List Request) :
    List (Except String PipelineOutput) :=
  reqs.map (fun q => runPipeline ext q.cfg q.grid q.raw)

/-! ### Pre-fetch validation (lines 64–77 of `src/app.py`) -/

/-- Outcome of the validation that runs before any network activity. -/
structure PrefetchResult where
  fetchAttempted : Bool
  errorMsg : Option String
deriving DecidableEq, Repr

/-- Lines 64–77 of `src/app.py`: `study_start_date >= study_end_date` is
rejected with an error and nothing is fetched; otherwise the fetch runs
exactly when all four credential strings are non-empty (Python truthiness of
`api_key and full_name and email and affiliation`). -/
def validateAndFetch (startDate endDate : ℤ)
    (apiKey fullName email affiliation : String) : PrefetchResult :=
  if endDate ≤ startDate then
    ⟨false, some "End date must be after start date."⟩
  else if apiKey ≠ "" ∧ fullName ≠ "" ∧ email ≠ "" ∧ affiliation ≠ "" then
    ⟨true, none⟩
  else
    ⟨false, some "Please enter your NSRDB API key, full name, email, and affiliation."⟩

/-! ### Module/inverter compatibility check (spec §4.2, mode b) -/

/-- Modelled from the spec: the module parameters the compatibility check
reads.  `src/app.py` contains no compatibility check (the spec attributes it
to other variants of the script that are not under `src/`), so the record is
taken from the spec's words: module max voltage (`Vmpo`), max power (`Pmp`)
and max current (`Impo`). -/
structure PVModuleParams where
  vmpo : ℚ
  pmp : ℚ
  impo : ℚ
deriving DecidableEq, Repr

/-- Modelled from the spec: the inverter ratings the compatibility check
reads — AC voltage rating (`Vac`), DC power rating (`Pdco`) and DC current
rating (`Idco`). -/
structure InverterRecord where
  vac : ℚ
  pdco : ℚ
  idco : ℚ
deriving DecidableEq, Repr

/-- Modelled from the spec: the three distinct, named rejection reasons of
the compatibility check. -/
inductive CompatibilityError where
  | voltageExceeded
  | powerExceeded
  | currentExceeded
deriving DecidableEq, Repr

/-- Modelled from the spec: the module/inverter compatibility check that
`src/app.py` lacks.  Per spec §4.2: "reject the module/inverter pairing if
module max voltage exceeds inverter AC voltage rating, module max power
exceeds inverter DC power rating, or module max current exceeds inverter DC
current rating — each a distinct, named rejection reason". -/
def checkCompatibility (m : PVModuleParams) (inv : InverterRecord) :
    Except CompatibilityError Unit :=
  if inv.vac < m.vmpo then Except.error CompatibilityError.voltageExceeded
  else if inv.pdco < m.pmp then Except.error CompatibilityError.powerExceeded
  else if inv.idco < m.impo then Except.error CompatibilityError.currentExceeded
  else Except.ok ()

/-! ### Concrete fixtures used when instantiating the theorems -/

/-- A trivial instantiation of the external models. -/
def constModels : ExternalModels :=
  ⟨fun _ _ _ => [], fun _ _ _ => [], fun _ _ => [], fun l => l⟩

/-- A sample table row. -/
def rowA : Row := ⟨some 1, some 2, some 3, some 4, some 5⟩

/-- A second, distinct sample row. -/
def rowB : Row := ⟨some 6, some 7, some 8, some 9, some 10⟩

/-- A third sample row. -/
def rowC : Row := ⟨some 11, some 12, some 13, some 14, some 15⟩

/-- A row whose raw irradiance readings are all zero. -/
def zeroRow : Row := ⟨some 0, some 0, some 0, some 20, some 1⟩

/-- A row with a missing ambient-temperature cell. -/
def gapRow : Row := ⟨some 1, some 1, some 1, none, some 1⟩

/-- Sorting of rows compares timestamps; the comparison is total. -/
instance {α : Type} : IsTotal (ℤ × α) (fun a b => a.1 ≤ b.1) :=
  ⟨fun a b => le_total a.1 b.1⟩

/-- Sorting of rows compares timestamps; the comparison is transitive. -/
instance {α : Type} : IsTrans (ℤ × α) (fun a b => a.1 ≤ b.1) :=
  ⟨fun _ _ _ h h' => le_trans h h'⟩

/-! ## Theorems -/

/-- A series without exact zeros passes `replace(0, pd.NA)` unchanged. -/
theorem replaceZeroWithNA_eq_self {s : List Cell} (h : some 0 ∉ s) :
    replaceZeroWithNA s = s := by
  induction s with
  | nil => rfl
  | cons c t ih =>
      have h1 : ¬ c = some 0 := by
        intro hc; subst hc; exact h (List.mem_cons_self _ _)
      have h2 : some 0 ∉ t := fun ht => h (List.mem_cons_of_mem _ ht)
      show (if c = some 0 then none else c) :: replaceZeroWithNA t = c :: t
      rw [if_neg h1, ih h2]

/-- A series without missing values passes the interpolation pass unchanged. -/
theorem interpolateLinearAux_eq_self (valids : List (ℕ × ℚ)) :
    ∀ (i : ℕ) (s : List Cell), none ∉ s → interpolateLinearAux valids i s = s := by
  intro i s
  induction s generalizing i with
  | nil => intro _; rfl
  | cons c t ih =>
      intro h
      cases c with
      | none => exact absurd (List.mem_cons_self _ _) h
      | some v =>
          show some v :: interpolateLinearAux valids (i + 1) t = some v :: t
          rw [ih (i + 1) (fun ht => h (List.mem_cons_of_mem _ ht))]

/-- A series without missing values passes `interpolate(method='linear')`
unchanged. -/
theorem interpolateLinear_eq_self {s : List Cell} (h : none ∉ s) :
    interpolateLinear s = s :=
  interpolateLinearAux_eq_self (validEntries s) 0 s h

/-- A series without missing values passes `fillna(0)` unchanged. -/
theorem fillna0_eq_self {s : List Cell} (h : none ∉ s) : fillna0 s = s := by
  induction s with
  | nil => rfl
  | cons c t ih =>
      cases c with
      | none => exact absurd (List.mem_cons_self _ _) h
      | some v =>
          show some v :: fillna0 t = some v :: t
          rw [ih (fun ht => h (List.mem_cons_of_mem _ ht))]

/-- Every cell produced by the zero-repair operation is a present value:
`fillna(0)` leaves no missing value behind. -/
theorem interpolate_zero_values_ne_none {s : List Cell} {c : Cell}
    (hc : c ∈ interpolate_zero_values s) : c ≠ none := by
  simp only [interpolate_zero_values, fillna0, List.mem_map] at hc
  obtain ⟨a, -, rfl⟩ := hc
  simp

/-- C10: on a series with no exact-zero and no missing values the zero-repair
operation `interpolate_zero_values` is the identity, and for every input its
output contains no missing value. -/
theorem zero_repair_identity_and_total (s : List Cell)
    (h0 : some 0 ∉ s) (hm : none ∉ s) :
    interpolate_zero_values s = s ∧
      ∀ (t : List Cell) (c : Cell), c ∈ interpolate_zero_values t → c ≠ none := by
  refine ⟨?_, fun t c hc => interpolate_zero_values_ne_none hc⟩
  unfold interpolate_zero_values
  rw [replaceZeroWithNA_eq_self h0, interpolateLinear_eq_self hm, fillna0_eq_self hm]

/-- Witness for C10 at the concrete zero-free, gap-free series `[1, 2]`. -/
theorem zero_repair_identity_and_total_witness :
    interpolate_zero_values [some 1, some 2] = [some 1, some 2] :=
  (zero_repair_identity_and_total [some 1, some 2] (by decide) (by decide)).1

/-- C1 (amended): the zero-repair operation maps `[10, 0, 0, 40]` to
`[10, 20, 30, 40]`, and maps `[0, 5, 0]` to `[0, 5, 5]` — after
zero-replacement the series is `[NaN, 5, NaN]`, pandas
`interpolate(method='linear')` (default `limit_direction='forward'`) leaves
the leading gap missing but fills the trailing gap with the last valid value
5, and the boundary fill then only turns the leading gap into 0. -/
theorem zero_repair_examples :
    interpolate_zero_values [some 10, some 0, some 0, some 40] =
      [some 10, some 20, some 30, some 40] ∧
    interpolate_zero_values [some 0, some 5, some 0] = [some 0, some 5, some 5] := by
  constructor <;>
    norm_num [interpolate_zero_values, fillna0, interpolateLinear, interpolateLinearAux,
      replaceZeroWithNA, validEntries, validEntriesAux, interpAt, List.filter]

/-- C1 counterexample: on `[0, 5, 0]` the zero-repair operation returns
`[0, 5, 5]`, not the `[0, 5, 0]` the claim states — the trailing zero is
forward-filled with 5 by the interpolation step, not restored to 0. -/
theorem zero_repair_trailing_cex :
    interpolate_zero_values [some 0, some 5, some 0] = [some 0, some 5, some 5] ∧
    interpolate_zero_values [some 0, some 5, some 0] ≠ [some 0, some 5, some 0] := by
  have h : interpolate_zero_values [some 0, some 5, some 0] = [some 0, some 5, some 5] := by
    norm_num [interpolate_zero_values, fillna0, interpolateLinear, interpolateLinearAux,
      replaceZeroWithNA, validEntries, validEntriesAux, interpAt, List.filter]
  exact ⟨h, by rw [h]; decide⟩

/-- C4: whenever the study start date is not strictly before the end date the
calculation is rejected with the input-validation error and no fetch is
attempted; with valid dates and all four credential fields non-empty the
fetch proceeds. -/
theorem date_validation_blocks_fetch (startDate endDate : ℤ)
    (apiKey fullName email affiliation : String) :
    (endDate ≤ startDate →
      validateAndFetch startDate endDate apiKey fullName email affiliation =
        ⟨false, some "End date must be after start date."⟩) ∧
    (startDate < endDate → apiKey ≠ "" → fullName ≠ "" → email ≠ "" → affiliation ≠ "" →
      validateAndFetch startDate endDate apiKey fullName email affiliation =
        ⟨true, none⟩) := by
  constructor
  · intro h
    rw [validateAndFetch, if_pos h]
  · intro h h1 h2 h3 h4
    rw [validateAndFetch, if_neg (by omega : ¬ endDate ≤ startDate),
      if_pos ⟨h1, h2, h3, h4⟩]

/-- Witness for C4: 2024-06-02 ≥ 2024-06-01 (as day numbers 2 and 1) is
rejected without a fetch; 1 < 2 with complete credentials fetches. -/
theorem date_validation_blocks_fetch_witness :
    validateAndFetch 2 1 "key" "name" "mail" "org" =
      ⟨false, some "End date must be after start date."⟩ ∧
    validateAndFetch 1 2 "key" "name" "mail" "org" = ⟨true, none⟩ :=
  ⟨(date_validation_blocks_fetch 2 1 "key" "name" "mail" "org").1 (by norm_num),
   (date_validation_blocks_fetch 1 2 "key" "name" "mail" "org").2 (by norm_num)
     (by decide) (by decide) (by decide) (by decide)⟩

/-- C5: on a successful run the reported energy equals the sum of the AC
power series, times the facade area, times `(1 - loss_fraction)` with
`loss_fraction = system_losses / 100`, divided by 1000. -/
theorem energy_aggregation_formula (ext : ExternalModels) (cfg : FacadeConfig)
    (grid : List ℤ) (raw : List (ℤ × Row)) (rows : List Row)
    (h : alignTable raw grid = Except.ok rows) :
    ∃ out, runPipeline ext cfg grid raw = Except.ok out ∧
      out.energyKWh =
        (acSeries ext rows).sum * cfg.area * (1 - cfg.lossPercent / 100) / 1000 := by
  refine ⟨⟨zeroIrradianceFlag rows,
    energy_generated_kWh (acSeries ext rows) cfg.area cfg.lossPercent⟩, ?_, ?_⟩
  · simp only [runPipeline, h]
  · simp only [energy_generated_kWh, effective_energy_generated, energy_generated]

/-- Witness for C5 at a one-row table and a one-hour grid. -/
theorem energy_aggregation_formula_witness :
    ∃ out, runPipeline constModels ⟨100, 15⟩ [0] [(0, rowA)] = Except.ok out ∧
      out.energyKWh =
        (acSeries constModels [rowA]).sum * (100 : ℚ) * (1 - 15 / 100) / 1000 :=
  energy_aggregation_formula constModels ⟨100, 15⟩ [0] [(0, rowA)] [rowA] (by rfl)

/-- C6 (amended): the ambient-temperature and wind-speed columns are passed to
the cell-temperature model exactly as extracted — no linear interpolation and
no zero-replacement prefilter is applied to them, so a missing value in them
survives into the power chain. -/
theorem temp_wind_passthrough (ext : ExternalModels) (rows : List Row) :
    acSeries ext rows =
      ext.acFromDc (ext.dcPower (poaOf ext rows)
        (ext.cellTemp (poaOf ext rows) (rows.map Row.temperature)
          (rows.map Row.wind_speed))) ∧
    tempAirColumn rows = rows.map Row.temperature ∧
    windSpeedColumn rows = rows.map Row.wind_speed ∧
    (none ∈ rows.map Row.temperature → none ∈ tempAirColumn rows) :=
  ⟨rfl, rfl, rfl, fun h => h⟩

/-- Witness for C6: a missing temperature cell survives column extraction. -/
theorem temp_wind_passthrough_witness :
    none ∈ tempAirColumn [gapRow] :=
  (temp_wind_passthrough constModels [gapRow]).2.2.2 (by decide)

/-- C6 counterexample: for a table whose temperature column is
`[1, NaN, 3]`, the pipeline consumes that column unchanged, while the
direct linear interpolation the claim asserts would produce `[1, 2, 3]`. -/
theorem temp_not_interpolated_cex :
    tempAirColumn [⟨some 9, some 9, some 9, some 1, some 9⟩,
        ⟨some 9, some 9, some 9, none, some 9⟩,
        ⟨some 9, some 9, some 9, some 3, some 9⟩] = [some 1, none, some 3] ∧
    interpolateLinear [some 1, none, some 3] = [some 1, some 2, some 3] ∧
    tempAirColumn [⟨some 9, some 9, some 9, some 1, some 9⟩,
        ⟨some 9, some 9, some 9, none, some 9⟩,
        ⟨some 9, some 9, some 9, some 3, some 9⟩] ≠
      interpolateLinear [some 1, none, some 3] := by
  have h1 : tempAirColumn [(⟨some 9, some 9, some 9, some 1, some 9⟩ : Row),
      ⟨some 9, some 9, some 9, none, some 9⟩,
      ⟨some 9, some 9, some 9, some 3, some 9⟩] = [some 1, none, some 3] := by decide
  have h2 : interpolateLinear [some 1, none, some 3] = [some 1, some 2, some 3] := by
    norm_num [interpolateLinear, interpolateLinearAux, validEntries, validEntriesAux,
      interpAt, List.filter]
  refine ⟨h1, h2, ?_⟩
  rw [h1, h2]
  decide

/-- C7: after a successful alignment the run always produces a result
(`Except.ok`), and its warning flag is set exactly when one of the three
zero-repaired irradiance columns is zero over the entire window — the
all-zero check is the only warning-producing condition. -/
theorem zero_irradiance_warning (ext : ExternalModels) (cfg : FacadeConfig)
    (grid : List ℤ) (raw : List (ℤ × Row)) (rows : List Row)
    (h : alignTable raw grid = Except.ok rows) :
    ∃ out, runPipeline ext cfg grid raw = Except.ok out ∧
      (out.zeroWarning = true ↔
        (allZeroCells (interpolate_zero_values (rows.map Row.ghi)) = true ∨
         allZeroCells (interpolate_zero_values (rows.map Row.dni)) = true ∨
         allZeroCells (interpolate_zero_values (rows.map Row.dhi)) = true)) := by
  refine ⟨⟨zeroIrradianceFlag rows,
    energy_generated_kWh (acSeries ext rows) cfg.area cfg.lossPercent⟩, ?_, ?_⟩
  · simp only [runPipeline, h]
  · simp [zeroIrradianceFlag, Bool.or_eq_true, or_assoc]

/-- Witness for C7 at a table whose irradiance readings are all zero: the
run succeeds and the warning fires. -/
theorem zero_irradiance_warning_witness :
    ∃ out, runPipeline constModels ⟨100, 15⟩ [0] [(0, zeroRow)] = Except.ok out ∧
      (out.zeroWarning = true ↔
        (allZeroCells (interpolate_zero_values ([zeroRow].map Row.ghi)) = true ∨
         allZeroCells (interpolate_zero_values ([zeroRow].map Row.dni)) = true ∨
         allZeroCells (interpolate_zero_values ([zeroRow].map Row.dhi)) = true)) :=
  zero_irradiance_warning constModels ⟨100, 15⟩ [0] [(0, zeroRow)] [zeroRow] (by rfl)

/-- C8 (spec-modelled): the compatibility check passes exactly when none of
the three ratings is exceeded, and each exceeded rating yields its own named
rejection reason (checked in the order voltage, power, current). -/
theorem compat_check_correct (m : PVModuleParams) (inv : InverterRecord) :
    (checkCompatibility m inv = Except.ok () ↔
      (m.vmpo ≤ inv.vac ∧ m.pmp ≤ inv.pdco ∧ m.impo ≤ inv.idco)) ∧
    (inv.vac < m.vmpo →
      checkCompatibility m inv = Except.error CompatibilityError.voltageExceeded) ∧
    (m.vmpo ≤ inv.vac → inv.pdco < m.pmp →
      checkCompatibility m inv = Except.error CompatibilityError.powerExceeded) ∧
    (m.vmpo ≤ inv.vac → m.pmp ≤ inv.pdco → inv.idco < m.impo →
      checkCompatibility m inv = Except.error CompatibilityError.currentExceeded) := by
  refine ⟨⟨?_, ?_⟩, ?_, ?_, ?_⟩
  · intro h
    by_cases h1 : inv.vac < m.vmpo
    · unfold checkCompatibility at h
      rw [if_pos h1] at h
      cases h
    · by_cases h2 : inv.pdco < m.pmp
      · unfold checkCompatibility at h
        rw [if_neg h1, if_pos h2] at h
        cases h
      · by_cases h3 : inv.idco < m.impo
        · unfold checkCompatibility at h
          rw [if_neg h1, if_neg h2, if_pos h3] at h
          cases h
        · exact ⟨not_lt.mp h1, not_lt.mp h2, not_lt.mp h3⟩
  · rintro ⟨a, b, c⟩
    unfold checkCompatibility
    rw [if_neg (not_lt.mpr a), if_neg (not_lt.mpr b), if_neg (not_lt.mpr c)]
  · intro h1
    unfold checkCompatibility
    rw [if_pos h1]
  · intro ha h2
    unfold checkCompatibility
    rw [if_neg (not_lt.mpr ha), if_pos h2]
  · intro ha hb h3
    unfold checkCompatibility
    rw [if_neg (not_lt.mpr ha), if_neg (not_lt.mpr hb), if_pos h3]

/-- Witness for C8, the spec's own example: a module with Vmpo = 50 V against
an inverter with Vac = 40 V is rejected for voltage; the same module against
Vac = 60 V, Pdco ≥ Pmp and Idco ≥ Impo passes. -/
theorem compat_check_correct_witness :
    checkCompatibility ⟨50, 200, 5⟩ ⟨40, 900, 10⟩ =
      Except.error CompatibilityError.voltageExceeded ∧
    checkCompatibility ⟨50, 200, 5⟩ ⟨60, 250, 6⟩ = Except.ok () :=
  ⟨(compat_check_correct ⟨50, 200, 5⟩ ⟨40, 900, 10⟩).2.1 (by norm_num),
   ((compat_check_correct ⟨50, 200, 5⟩ ⟨60, 250, 6⟩).1).mpr
     ⟨by norm_num, by norm_num, by norm_num⟩⟩

/-- C9: a session is stateless and deterministic — whatever requests were run
before or after, the output at a given position is the fixed pure function of
that position's request, and running the same request twice yields the same
result twice. -/
theorem session_stateless (ext : ExternalModels) (pre post : List Request)
    (q : Request) :
    (runSession ext (pre ++ q :: post))[pre.length]? =
      some (runPipeline ext q.cfg q.grid q.raw) ∧
    runSession ext [q, q] =
      [runPipeline ext q.cfg q.grid q.raw, runPipeline ext q.cfg q.grid q.raw] := by
  constructor
  · rw [runSession, List.map_append, List.map_cons,
      List.getElem?_append_right (by simp)]
    simp
  · rfl

/-- C2 (amended): the time-alignment step performs no deduplication — it only
sorts, which yields a non-decreasing (not necessarily strictly increasing)
index, and a raw index containing duplicate timestamps makes the
nearest-reindex raise, aborting the calculation. -/
theorem align_no_dedup (raw : List (ℤ × Row)) (grid : List ℤ)
    (hdup : ¬ (raw.map Prod.fst).Nodup) :
    alignTable raw grid =
      Except.error "Reindexing only valid with uniquely valued Index objects" ∧
    List.Sorted (fun a b : ℤ × Row => a.1 ≤ b.1) (sortIndex raw) := by
  constructor
  · have hperm : List.Perm (sortIndex raw) raw := List.perm_insertionSort _ raw
    have hnd : ¬ ((sortIndex raw).map Prod.fst).Nodup := by
      intro hn
      exact hdup ((hperm.map Prod.fst).nodup_iff.mp hn)
    simp [alignTable, reindexNearest, hnd, Except.map]
  · exact List.sorted_insertionSort _ raw

/-- Witness for C2 (amended) at a table whose timestamp 0 occurs twice. -/
theorem align_no_dedup_witness :
    alignTable [(0, rowA), (0, rowB), (1, rowC)] [0, 1] =
      Except.error "Reindexing only valid with uniquely valued Index objects" ∧
    List.Sorted (fun a b : ℤ × Row => a.1 ≤ b.1)
      (sortIndex [(0, rowA), (0, rowB), (1, rowC)]) :=
  align_no_dedup [(0, rowA), (0, rowB), (1, rowC)] [0, 1] (by decide)

/-- C2 counterexample: on the concrete table with rows at timestamps
0, 0, 1, time alignment does not return the first-occurrence-deduplicated
table the claim describes — it aborts with a reindexing error. -/
theorem align_dedup_cex :
    alignTable [(0, rowA), (0, rowB), (1, rowC)] [0, 1] =
      Except.error "Reindexing only valid with uniquely valued Index objects" ∧
    (Except.error "Reindexing only valid with uniquely valued Index objects" :
        Except String (List Row)) ≠ Except.ok [rowA, rowC] := by
  constructor
  · rfl
  · intro h
    cases h

/-- Characterisation of the nearest fold on a sorted tail: the result is the
initial candidate or a member of the tail, it minimises the distance to the
target, and on equal distance every candidate lies at or below it (ties go to
the later timestamp). -/
theorem nearestFold_spec (t : ℤ) (rest : List ℤ) :
    ∀ b : ℤ, List.Sorted (· ≤ ·) rest → (∀ c ∈ rest, b ≤ c) →
      (nearestFold t b rest = b ∨ nearestFold t b rest ∈ rest) ∧
      (nearestFold t b rest - t).natAbs ≤ (b - t).natAbs ∧
      (∀ x ∈ rest, (nearestFold t b rest - t).natAbs ≤ (x - t).natAbs) ∧
      ((b - t).natAbs = (nearestFold t b rest - t).natAbs → b ≤ nearestFold t b rest) ∧
      (∀ x ∈ rest, (x - t).natAbs = (nearestFold t b rest - t).natAbs →
        x ≤ nearestFold t b rest) := by
  induction rest with
  | nil =>
      intro b _ _
      exact ⟨Or.inl rfl, le_refl _, by simp, fun _ => le_refl _, by simp⟩
  | cons c cs ih =>
      intro b hs hb
      have hs' : List.Sorted (· ≤ ·) cs := hs.of_cons
      have hcc : ∀ x ∈ cs, c ≤ x := (List.sorted_cons.mp hs).1
      have hbc : b ≤ c := hb c (List.mem_cons_self _ _)
      by_cases hupd : (c - t).natAbs ≤ (b - t).natAbs
      · have hfold : nearestFold t b (c :: cs) = nearestFold t c cs := by
          simp [nearestFold, List.foldl_cons, if_pos hupd]
        obtain ⟨hmem, hle, hall, htieb, htiex⟩ := ih c hs' hcc
        rw [hfold]
        refine ⟨?_, le_trans hle hupd, ?_, ?_, ?_⟩
        · rcases hmem with h | h
          · exact Or.inr (by rw [h]; exact List.mem_cons_self _ _)
          · exact Or.inr (List.mem_cons_of_mem _ h)
        · intro x hx
          rcases List.mem_cons.mp hx with rfl | hx'
          · exact hle
          · exact hall x hx'
        · intro heq
          have h1 : (c - t).natAbs = (nearestFold t c cs - t).natAbs :=
            le_antisymm (heq ▸ hupd) hle
          exact le_trans hbc (htieb h1)
        · intro x hx heq
          rcases List.mem_cons.mp hx with rfl | hx'
          · exact htieb heq
          · exact htiex x hx' heq
      · have hfold : nearestFold t b (c :: cs) = nearestFold t b cs := by
          simp [nearestFold, List.foldl_cons, if_neg hupd]
        have hb' : ∀ x ∈ cs, b ≤ x := fun x hx => hb x (List.mem_cons_of_mem _ hx)
        obtain ⟨hmem, hle, hall, htieb, htiex⟩ := ih b hs' hb'
        rw [hfold]
        refine ⟨?_, hle, ?_, htieb, ?_⟩
        · rcases hmem with h | h
          · exact Or.inl h
          · exact Or.inr (List.mem_cons_of_mem _ h)
        · intro x hx
          rcases List.mem_cons.mp hx with rfl | hx'
          · exact le_trans hle (le_of_lt (not_le.mp hupd))
          · exact hall x hx'
        · intro x hx heq
          rcases List.mem_cons.mp hx with rfl | hx'
          · exfalso
            have hlt : (b - t).natAbs < (x - t).natAbs := not_le.mp hupd
            rw [heq] at hlt
            exact absurd hle (not_le_of_lt hlt)
          · exact htiex x hx' heq

/-- On a non-empty sorted index `get_indexer(..., method='nearest')` selects
a member of the index at minimal distance from the target, and every index
entry at the same distance lies at or below the selected one: tied distances
resolve to the later timestamp. -/
theorem nearestTime_spec (times : List ℤ) (t : ℤ)
    (hne : times ≠ []) (hs : List.Sorted (· ≤ ·) times) :
    ∃ s, nearestTime times t = some s ∧ s ∈ times ∧
      (∀ x ∈ times, (s - t).natAbs ≤ (x - t).natAbs) ∧
      (∀ x ∈ times, (x - t).natAbs = (s - t).natAbs → x ≤ s) := by
  match times, hne with
  | b :: rest, _ =>
    have hs' : List.Sorted (· ≤ ·) rest := hs.of_cons
    have hb : ∀ c ∈ rest, b ≤ c := (List.sorted_cons.mp hs).1
    obtain ⟨hmem, hleb, hall, htieb, htiex⟩ := nearestFold_spec t rest b hs' hb
    refine ⟨nearestFold t b rest, rfl, ?_, ?_, ?_⟩
    · rcases hmem with h | h
      · exact by rw [h]; exact List.mem_cons_self _ _
      · exact List.mem_cons_of_mem _ h
    · intro x hx
      rcases List.mem_cons.mp hx with rfl | hx'
      · exact hleb
      · exact hall x hx'
    · intro x hx heq
      rcases List.mem_cons.mp hx with rfl | hx'
      · exact htieb heq
      · exact htiex x hx' heq

/-- C3 (amended): for a sorted, duplicate-free, non-empty source series and
any target grid of length N, the nearest reindex succeeds with exactly N
rows; row i carries target hour `grid[i]` and the value of a source row whose
timestamp is at minimal distance from that hour, with ties between two
equidistant source timestamps broken toward the later one (pandas breaks the
tie toward the larger index value, not the earlier one). -/
theorem reindex_nearest_rows {α : Type} (src : List (ℤ × α)) (grid : List ℤ)
    (hne : src ≠ []) (hnd : (src.map Prod.fst).Nodup)
    (hs : List.Sorted (· ≤ ·) (src.map Prod.fst)) :
    ∃ out, reindexNearest src grid = Except.ok out ∧
      out.length = grid.length ∧
      ∀ (i : ℕ) (t : ℤ), grid[i]? = some t →
        ∃ p ∈ src, out[i]? = some (t, some p.2) ∧
          (∀ q ∈ src, (p.1 - t).natAbs ≤ (q.1 - t).natAbs) ∧
          (∀ q ∈ src, (q.1 - t).natAbs = (p.1 - t).natAbs → q.1 ≤ p.1) := by
  refine ⟨_, by rw [reindexNearest, if_pos hnd], by simp, ?_⟩
  intro i t ht
  have hmapne : src.map Prod.fst ≠ [] := by
    cases src with
    | nil => exact absurd rfl hne
    | cons a l => simp
  obtain ⟨s, hsome, hsmem, hmin, htie⟩ := nearestTime_spec (src.map Prod.fst) t hmapne hs
  obtain ⟨p0, hp0mem, hp0⟩ := List.mem_map.mp hsmem
  have hfind : (src.find? (fun r => r.1 == s)).isSome :=
    List.find?_isSome.mpr ⟨p0, hp0mem, by simp [hp0]⟩
  obtain ⟨q, hq⟩ := Option.isSome_iff_exists.mp hfind
  have hqs : q.1 = s := by
    have := List.find?_some hq
    simpa using this
  have hqmem : q ∈ src := List.mem_of_find?_eq_some hq
  refine ⟨q, hqmem, ?_, ?_, ?_⟩
  · rw [List.getElem?_map, ht]
    simp [hsome, lookupTime, hq]
  · intro r hr
    have := hmin r.1 (List.mem_map.mpr ⟨r, hr, rfl⟩)
    rw [hqs]
    exact this
  · intro r hr heq
    rw [hqs]
    refine htie r.1 (List.mem_map.mpr ⟨r, hr, rfl⟩) ?_
    rw [hqs] at heq
    exact heq

/-- Witness for C3 (amended) at the source `[(0, 10), (2, 20)]` and the
one-hour grid `[1]`. -/
theorem reindex_nearest_rows_witness :
    ∃ out, reindexNearest [((0 : ℤ), (10 : ℚ)), (2, 20)] [1] = Except.ok out ∧
      out.length = [(1 : ℤ)].length ∧
      ∀ (i : ℕ) (t : ℤ), ([(1 : ℤ)])[i]? = some t →
        ∃ p ∈ [((0 : ℤ), (10 : ℚ)), (2, 20)], out[i]? = some (t, some p.2) ∧
          (∀ q ∈ [((0 : ℤ), (10 : ℚ)), (2, 20)],
            (p.1 - t).natAbs ≤ (q.1 - t).natAbs) ∧
          (∀ q ∈ [((0 : ℤ), (10 : ℚ)), (2, 20)],
            (q.1 - t).natAbs = (p.1 - t).natAbs → q.1 ≤ p.1) :=
  reindex_nearest_rows [((0 : ℤ), (10 : ℚ)), (2, 20)] [1]
    (by simp) (by decide) (by decide)

/-- C3 counterexample: target hour 1 lies exactly between source timestamps
0 and 2; the reindex assigns the value 20 of the later timestamp 2, while the
claimed earlier-tie rule would assign the value 10 of timestamp 0. -/
theorem reindex_tie_cex :
    reindexNearest [((0 : ℤ), (10 : ℚ)), (2, 20)] [1] =
      Except.ok [(1, some 20)] ∧
    nearestTime [0, 2] 1 = some 2 ∧
    nearestTimeEarlierTie [0, 2] 1 = some 0 ∧
    (some (20 : ℚ) : Option ℚ) ≠ some 10 := by
  refine ⟨by rfl, by decide, by decide, by decide⟩

end FacadeCalc
